import Mathlib

/-!
Verification of the order-lifecycle core of usr-backend (src/usr-backend/src/manifest.rs):
a shallow embedding of the manifest handlers (new_order, change_order, cancel_order,
update_order) over an explicit database state, with theorems about the lifecycle
state machine, atomicity and notification behaviour.
-/

namespace Usr

/-- Lifecycle status of an order. Modelled from the spec: the order_status module is
not under src; the spec requires at least `New` and the terminal `InStorage`, plus
implementation-defined intermediate values (the spec scenarios use `Ordered`). -/
inductive Status
  | New
  | Ordered
  | Shipped
  | InStorage
deriving DecidableEq

/-- Modelled from the spec: display text of a status (the Display impl lives in the
missing order_status module); used only inside notification text. -/
def Status.display : Status → String
  | .New => "New"
  | .Ordered => "Ordered"
  | .Shipped => "Shipped"
  | .InStorage => "In Storage"

/-- Modelled from the spec: `unit_cost` is an exact decimal currency amount (the
external rust_decimal Decimal re-exported by sea_orm): an integer mantissa with a
base-10 scale. Costs in this system are non-negative, so the mantissa is a Nat. -/
structure Decimal where
  mantissa : Nat
  scale : Nat
deriving DecidableEq

def Decimal.fromNat (n : Nat) : Decimal := ⟨n, 0⟩

/-- Modelled from the spec: exact decimal multiplication. rust_decimal multiplies
exactly whenever the result mantissa fits in 96 bits and the combined scale stays
within 28; the theorems about it carry those bounds as hypotheses. -/
def Decimal.mul (a b : Decimal) : Decimal := ⟨a.mantissa * b.mantissa, a.scale + b.scale⟩

def Decimal.toRat (a : Decimal) : ℚ := (a.mantissa : ℚ) / 10 ^ a.scale

/-- Modelled from the spec: Display of a decimal keeps its scale, printing the
mantissa with a decimal point `scale` digits from the right (2.50 displays as
"2.50", and 10 * 2.50 = 25.00 displays as "25.00"). -/
def Decimal.display (a : Decimal) : String :=
  if a.scale = 0 then toString a.mantissa
  else
    toString (a.mantissa / 10 ^ a.scale) ++ "." ++
      String.mk (List.replicate (a.scale - (toString (a.mantissa % 10 ^ a.scale)).length) '0') ++
      toString (a.mantissa % 10 ^ a.scale)

/-- The Order row (entity `order`): the mutable descriptive fields plus the optional
external `ref_number`. `team` is the display string of the scheduler Team tag
(that enum lives outside this module and is only ever displayed here). -/
structure Order where
  id : Nat
  name : String
  count : Nat
  unit_cost : Decimal
  store_in : String
  team : String
  reason : String
  vendor : String
  link : String
  ref_number : Option Nat
deriving DecidableEq

/-- A StatusEvent row (entity `order_status`): one immutable record of an order's
status; `date` is an abstract timestamp. -/
structure StatusEvent where
  order_id : Nat
  instance_id : Nat
  date : Nat
  status : Status
deriving DecidableEq

/-- The persistent state: the orders table, the status-events table, and the next
auto-assigned order id (the auto-increment primary key of the orders table). -/
structure Db where
  orders : List Order
  events : List StatusEvent
  nextOrderId : Nat
deriving DecidableEq

/-- `order::Entity::find_by_id(id).one()`. -/
def findOrder (db : Db) (id : Nat) : Option Order :=
  db.orders.find? (fun o => o.id == id)

/-- All status events of one order. -/
def eventsFor (db : Db) (id : Nat) : List StatusEvent :=
  db.events.filter (fun e => e.order_id == id)

/-- Fold step selecting the event with the greatest instance_id. -/
def pickLatest (acc : Option StatusEvent) (e : StatusEvent) : Option StatusEvent :=
  match acc with
  | none => some e
  | some b => if b.instance_id < e.instance_id then some e else some b

/-- The query `find().filter(OrderId = id).order_by_desc(InstanceId).one()`: the
status event with the greatest instance_id for the order, if any. -/
def currentStatus (db : Db) (id : Nat) : Option StatusEvent :=
  (eventsFor db id).foldl pickLatest none

/-- The greatest instance_id already present for an order (0 when none). -/
def maxInstance (db : Db) (id : Nat) : Nat :=
  (eventsFor db id).foldl (fun m e => max m e.instance_id) 0

/-- Modelled from the spec: inserting a status event with `instance_id` NotSet
assigns the next per-order instance id (previous maximum plus one); the entity
definition performing the assignment is not under src. -/
def appendEvent (db : Db) (id : Nat) (st : Status) (now : Nat) : Db :=
  { db with events := db.events ++ [⟨id, maxInstance db id + 1, now, st⟩] }

/-- Overwrite the Order row with a given id (an UPDATE ... WHERE id = ?). -/
def replaceOrderRow (db : Db) (id : Nat) (o : Order) : Db :=
  { db with orders := db.orders.map (fun x => if x.id = id then o else x) }

/-- The outcome a handler reports: the (StatusCode, message) pair of the source,
with `panicked` standing for the unreachable! panics. -/
inductive HResp
  | ok
  | badRequest (msg : String)
  | internalError
  | panicked
deriving DecidableEq

/-- The two webhook channels: new_orders_webhook (lifecycle) and
order_updates_webhook (status advancement). -/
inductive Channel
  | newOrders
  | orderUpdates
deriving DecidableEq

/-- A queued notification: channel, order id, message text. -/
abbrev Notif := Channel × Nat × String

/-- The subtotal text used in notifications: Decimal::from(count) * unit_cost,
displayed. -/
def subtotalText (count : Nat) (unit_cost : Decimal) : String :=
  ((Decimal.fromNat count).mul unit_cost).display

/-- The JSON body of POST /new/order. -/
structure PendingOrder where
  name : String
  count : Nat
  unit_cost : Decimal
  store_in : String
  team : String
  reason : String
  vendor : String
  link : String
deriving DecidableEq

/-- The webhook message built by new_order. -/
def newOrderMsg (po : PendingOrder) : String :=
  "**New Order!**\n**Name:** " ++ po.name ++ "\n**Vendor:** " ++ po.vendor ++
    "\n**Link:** " ++ po.link ++ "\n**Count:** " ++ toString po.count ++
    "\n**Unit Cost:** $" ++ po.unit_cost.display ++
    "\n**Subtotal:** $" ++ subtotalText po.count po.unit_cost ++
    "\n**Team:** " ++ po.team ++ "\n**Reason:** " ++ po.reason

/-- The Order row inserted by new_order (ref_number starts NotSet, i.e. null). -/
def orderOfPending (po : PendingOrder) (oid : Nat) : Order :=
  { id := oid, name := po.name, count := po.count, unit_cost := po.unit_cost,
    store_in := po.store_in, team := po.team, reason := po.reason,
    vendor := po.vendor, link := po.link, ref_number := none }

/-- POST /new/order: builds the notification text, then inserts the Order row and
its initial `New` status event inside one transaction; on commit it enqueues on the
lifecycle channel. `txFail` models the transaction failing to commit (full
rollback, 500). -/
def new_order (db : Db) (po : PendingOrder) (now : Nat) (txFail : Bool) :
    HResp × Db × List Notif :=
  if txFail then (.internalError, db, [])
  else
    let db1 : Db := { db with orders := db.orders ++ [orderOfPending po db.nextOrderId],
                              nextOrderId := db.nextOrderId + 1 }
    (.ok, appendEvent db1 db.nextOrderId .New now,
      [(.newOrders, db.nextOrderId, newOrderMsg po)])

/-- The JSON body of POST /change/order. -/
structure ChangeOrder where
  id : Nat
  name : String
  count : Nat
  unit_cost : Decimal
  store_in : String
  team : String
  reason : String
  vendor : String
  link : String
deriving DecidableEq

/-- The webhook message built by change_order. -/
def changeOrderMsg (co : ChangeOrder) : String :=
  "***Order Changed***\n**Name:** " ++ co.name ++ "\n**Vendor:** " ++ co.vendor ++
    "\n**Link:** " ++ co.link ++ "\n**Count:** " ++ toString co.count ++
    "\n**Unit Cost:** $" ++ co.unit_cost.display ++
    "\n**Subtotal:** $" ++ subtotalText co.count co.unit_cost ++
    "\n**Team:** " ++ co.team ++ "\n**Reason:** " ++ co.reason

/-- The full-overwrite of mutable fields performed by change_order's update; the
id is Unchanged and ref_number is NotSet, so both are preserved. -/
def replaceFields (o : Order) (co : ChangeOrder) : Order :=
  { o with name := co.name, count := co.count, unit_cost := co.unit_cost,
           store_in := co.store_in, team := co.team, reason := co.reason,
           vendor := co.vendor, link := co.link }

/-- POST /change/order: requires the current status to be `New`, then overwrites
all mutable fields of the Order row. An update that matches no row is a
RecordNotUpdated error (500). `findFail` and `updFail` model the two storage
interactions failing with an I/O error. -/
def change_order (db : Db) (co : ChangeOrder) (findFail updFail : Bool) :
    HResp × Db × List Notif :=
  if findFail then (.internalError, db, [])
  else
    match currentStatus db co.id with
    | none => (.badRequest "Order not found", db, [])
    | some ev =>
      if ev.status ≠ Status.New then
        (.badRequest "Order has already been processed", db, [])
      else if updFail then (.internalError, db, [])
      else
        match findOrder db co.id with
        | none => (.internalError, db, [])
        | some o =>
          (.ok, replaceOrderRow db co.id (replaceFields o co),
            [(.newOrders, co.id, changeOrderMsg co)])

/-- The webhook message built by cancel_order. -/
def cancelMsg (o : Order) : String :=
  "***Order Cancelled***\n**Name:** " ++ o.name ++ "\n**Count:** " ++ toString o.count ++
    "\n**Team:** " ++ o.team

/-- DELETE /del/order: non-force requires the current status to be `New` and
deletes only the Order row; force deletes the Order row and every status event of
the order inside one transaction. Finding a status event but no Order row hits
unreachable!. `delFail` models the delete (or the force transaction) failing. -/
def cancel_order (db : Db) (id : Nat) (force : Bool)
    (findFail findOrderFail delFail : Bool) : HResp × Db × List Notif :=
  if findFail then (.internalError, db, [])
  else
    match currentStatus db id with
    | none => (.badRequest "Order not found", db, [])
    | some ev =>
      if force = false ∧ ev.status ≠ Status.New then
        (.badRequest "Order has already been processed", db, [])
      else if findOrderFail then (.internalError, db, [])
      else
        match findOrder db id with
        | none => (.panicked, db, [])
        | some o =>
          if delFail then (.internalError, db, [])
          else if force then
            (.ok, { db with orders := db.orders.filter (fun x => x.id != id),
                            events := db.events.filter (fun e => e.order_id != id) },
              [(.newOrders, id, cancelMsg o)])
          else
            (.ok, { db with orders := db.orders.filter (fun x => x.id != id) },
              [(.newOrders, id, cancelMsg o)])

/-- The JSON body of POST /update/order. -/
structure UpdateOrder where
  id : Nat
  status : Status
  ref_number : Option Nat
deriving DecidableEq

/-- The webhook message built by update_order from the pre-transaction Order row. -/
def updMsg (o : Order) (uo : UpdateOrder) : String :=
  if uo.status = Status.InStorage then
    if o.store_in = "" then
      "**Order Complete!**\n**Name:** " ++ o.name ++ "\n**Team:** " ++ o.team
    else
      "**Order Complete!**\n**Name:** " ++ o.name ++ "\n**Team:** " ++ o.team ++
        "\n**Location:** " ++ o.store_in
  else
    "**Order Update!**\n**Name:** " ++ o.name ++ "\n**Team:** " ++ o.team ++
      "\n**Status:** " ++ uo.status.display

/-- Outcome of update_order's validation read: an early response, or the data the
write transaction needs. -/
inductive UpdReadOut
  | early (r : HResp)
  | proceed (same_status : Bool) (msg : String)
deriving DecidableEq

/-- The validation read of POST /update/order. It runs on the plain connection,
outside (and before) the write transaction: terminal check, same-status check,
Order-row lookup (unreachable! when absent) and message construction. -/
def update_order_read (db : Db) (uo : UpdateOrder) (findFail findOrderFail : Bool) :
    UpdReadOut :=
  if findFail then .early .internalError
  else
    match currentStatus db uo.id with
    | none => .early (.badRequest "Order not found")
    | some ev =>
      if ev.status = Status.InStorage then .early (.badRequest "Order is already in storage")
      else if ev.status = uo.status ∧ uo.ref_number = none then
        .early (.badRequest "Order is already in that state")
      else if findOrderFail then .early .internalError
      else
        match findOrder db uo.id with
        | none => .early .panicked
        | some o => .proceed (decide (ev.status = uo.status)) (updMsg o uo)

/-- The write transaction of POST /update/order: unless the target equals the
current status, insert a new status event; then set `ref_number` on the Order row
to exactly the supplied optional value (ActiveValue::Set of the Option). The
transaction rolls back wholly on failure; an update matching no row is an error
rolling the transaction back. -/
def update_order_write (db : Db) (uo : UpdateOrder) (same_status : Bool) (now : Nat)
    (txFail : Bool) : HResp × Db :=
  if txFail then (.internalError, db)
  else
    let db1 := if same_status then db else appendEvent db uo.id uo.status now
    match findOrder db1 uo.id with
    | none => (.internalError, db)
    | some o => (.ok, replaceOrderRow db1 uo.id { o with ref_number := uo.ref_number })

/-- POST /update/order: the validation read followed by the write transaction; a
status-channel notification is enqueued only after commit and only for a real
status change. -/
def update_order (db : Db) (uo : UpdateOrder) (now : Nat)
    (findFail findOrderFail txFail : Bool) : HResp × Db × List Notif :=
  match update_order_read db uo findFail findOrderFail with
  | .early r => (r, db, [])
  | .proceed same_status msg =>
    match update_order_write db uo same_status now txFail with
    | (.ok, db2) => (.ok, db2, if same_status then [] else [(.orderUpdates, uo.id, msg)])
    | (_, db2) => (.internalError, db2, [])

/-- A concrete order used in the witness states. -/
def oW : Order :=
  { id := 1, name := "Widget", count := 10, unit_cost := ⟨250, 2⟩, store_in := "",
    team := "Eng", reason := "resupply", vendor := "Acme", link := "http:acme",
    ref_number := none }

/-- A state holding order 1 whose current status is New. -/
def dbNew : Db := ⟨[oW], [⟨1, 1, 0, Status.New⟩], 2⟩

/-- A state holding order 1 whose current status is the terminal InStorage. -/
def dbStor : Db := ⟨[oW], [⟨1, 1, 0, Status.New⟩, ⟨1, 2, 1, Status.InStorage⟩], 2⟩

/-- The state a non-force cancel leaves behind: a status history whose current
status is New, but no Order row. -/
def dbOrphan : Db := ⟨[], [⟨1, 1, 0, Status.New⟩], 2⟩

/-- Order 1 with a stored external ref_number. -/
def oW7 : Order := { oW with ref_number := some 7 }

/-- A state holding order 1 (ref_number 7) whose current status is New. -/
def dbRef : Db := ⟨[oW7], [⟨1, 1, 0, Status.New⟩], 2⟩

/-- A concrete change-order request body. -/
def coEx : ChangeOrder :=
  ⟨1, "Widget Pro", 10, ⟨250, 2⟩, "", "Eng", "resupply", "Acme", "http:acme"⟩

/-- A fold with `pickLatest` yields either a member of the list or the seed. -/
theorem pickLatest_foldl_mem (l : List StatusEvent) (acc : Option StatusEvent)
    (b : StatusEvent) (h : l.foldl pickLatest acc = some b) : b ∈ l ∨ acc = some b := by
  induction l generalizing acc with
  | nil => right; simpa using h
  | cons a t ih =>
    rw [List.foldl_cons] at h
    rcases ih (pickLatest acc a) h with hm | he
    · exact .inl (List.mem_cons_of_mem a hm)
    · cases acc with
      | none =>
        left
        simp only [pickLatest] at he
        injection he with he
        exact he ▸ List.mem_cons_self a t
      | some c =>
        simp only [pickLatest] at he
        split at he
        · left
          injection he with he
          exact he ▸ List.mem_cons_self a t
        · exact .inr he

/-- The current status of an order is one of its stored events. -/
theorem currentStatus_mem {db : Db} {id : Nat} {ev : StatusEvent}
    (h : currentStatus db id = some ev) : ev ∈ db.events ∧ ev.order_id = id := by
  rcases pickLatest_foldl_mem _ _ _ h with hm | hn
  · have hf := List.mem_filter.mp hm
    exact ⟨hf.1, by simpa using hf.2⟩
  · exact absurd hn (by simp)

/-- Replacing the row found by `find?` makes `find?` return the replacement,
provided the replacement keeps the id. -/
theorem find?_map_replace (l : List Order) (id : Nat) (o o' : Order)
    (h : l.find? (fun x => x.id == id) = some o) (hid : o'.id = o.id) :
    (l.map (fun x => if x.id = id then o' else x)).find? (fun x => x.id == id) = some o' := by
  induction l with
  | nil => simp at h
  | cons a t ih =>
    by_cases ha : a.id = id
    · rw [List.find?_cons_of_pos _ (by simpa using ha)] at h
      injection h with h
      subst h
      rw [List.map_cons, if_pos ha]
      exact List.find?_cons_of_pos _ (by simp [hid, ha])
    · rw [List.find?_cons_of_neg _ (by simpa using ha)] at h
      rw [List.map_cons, if_neg ha]
      rw [List.find?_cons_of_neg _ (by simpa using ha)]
      exact ih h

/-- Db-level version of `find?_map_replace`. -/
theorem findOrder_replace {db : Db} {id : Nat} {o o' : Order}
    (h : findOrder db id = some o) (hid : o'.id = o.id) :
    findOrder (replaceOrderRow db id o') id = some o' :=
  find?_map_replace db.orders id o o' h hid

/-- change_order never touches the status ledger. -/
theorem change_order_events (db : Db) (co : ChangeOrder) (f1 f2 : Bool) :
    (change_order db co f1 f2).2.1.events = db.events := by
  unfold change_order
  repeat' split
  all_goals rfl

/-- cancel_order only ever removes status events, never adds any. -/
theorem cancel_order_events_sub (db : Db) (id : Nat) (force f1 f2 f3 : Bool)
    (e : StatusEvent) (h : e ∈ (cancel_order db id force f1 f2 f3).2.1.events) :
    e ∈ db.events := by
  unfold cancel_order at h
  repeat' split at h
  all_goals first
    | exact h
    | exact (List.mem_filter.mp h).1

/-- new_order only adds a status event for the freshly assigned order id. -/
theorem new_order_events_sub (db : Db) (po : PendingOrder) (now : Nat) (tf : Bool)
    (e : StatusEvent) (h : e ∈ (new_order db po now tf).2.1.events) :
    e ∈ db.events ∨ e.order_id = db.nextOrderId := by
  simp only [new_order, appendEvent] at h
  split at h
  · exact .inl h
  · rcases List.mem_append.mp h with h | h
    · exact .inl h
    · right
      rw [List.mem_singleton.mp h]

/-- The write transaction of update_order only ever adds an event for the
targeted order id. -/
theorem update_order_write_events_sub (db : Db) (uo : UpdateOrder) (s : Bool) (now : Nat)
    (tf : Bool) (e : StatusEvent) (h : e ∈ (update_order_write db uo s now tf).2.events) :
    e ∈ db.events ∨ e.order_id = uo.id := by
  simp only [update_order_write] at h
  split at h
  · exact .inl h
  · split at h
    · exact .inl h
    · cases s with
      | false =>
        simp only [Bool.false_eq_true, if_false, replaceOrderRow, appendEvent] at h
        rcases List.mem_append.mp h with h | h
        · exact .inl h
        · right
          rw [List.mem_singleton.mp h]
      | true =>
        simp only [if_true, replaceOrderRow] at h
        exact .inl h

/-- update_order only ever adds an event for the targeted order id. -/
theorem update_order_events_sub (db : Db) (uo : UpdateOrder) (now : Nat) (f1 f2 f3 : Bool)
    (e : StatusEvent) (h : e ∈ (update_order db uo now f1 f2 f3).2.1.events) :
    e ∈ db.events ∨ e.order_id = uo.id := by
  unfold update_order at h
  cases hr : update_order_read db uo f1 f2 with
  | early r =>
    rw [hr] at h
    exact .inl h
  | proceed s m =>
    rw [hr] at h
    dsimp only at h
    rcases hw : update_order_write db uo s now f3 with ⟨r2, db2⟩
    rw [hw] at h
    have h2 : e ∈ db2.events → e ∈ db.events ∨ e.order_id = uo.id := by
      intro hm
      refine update_order_write_events_sub db uo s now f3 e ?_
      rw [hw]
      exact hm
    cases r2 with
    | ok => exact h2 h
    | badRequest m2 => exact h2 h
    | internalError => exact h2 h
    | panicked => exact h2 h

/-- Once the current status is the terminal InStorage, update_order (with the
reads succeeding) answers the conflict unconditionally and changes nothing. -/
theorem update_order_terminal_eq (db : Db) (uo : UpdateOrder) (ev : StatusEvent)
    (hcur : currentStatus db uo.id = some ev) (hst : ev.status = Status.InStorage)
    (now : Nat) (fof tf : Bool) :
    update_order db uo now false fof tf =
      (.badRequest "Order is already in storage", db, []) := by
  have hr : update_order_read db uo false fof =
      .early (.badRequest "Order is already in storage") := by
    unfold update_order_read
    simp [hcur, hst]
  unfold update_order
  rw [hr]

/-- Once the current status is InStorage, update_order leaves the state unchanged
for every combination of storage failures. -/
theorem update_order_terminal_db (db : Db) (uo : UpdateOrder) (ev : StatusEvent)
    (hcur : currentStatus db uo.id = some ev) (hst : ev.status = Status.InStorage)
    (now : Nat) (f1 f2 f3 : Bool) :
    (update_order db uo now f1 f2 f3).2.1 = db := by
  cases f1 with
  | false => rw [update_order_terminal_eq db uo ev hcur hst now f2 f3]
  | true =>
    have hr : update_order_read db uo true f2 = .early .internalError := by
      unfold update_order_read
      simp
    unfold update_order
    rw [hr]

/-- C1: once an order's current status (the StatusEvent with the greatest
instance_id) is the terminal InStorage, every advance call on that order is
rejected with the "already in storage" conflict and leaves the state unchanged,
and no operation of the engine (create, amend, cancel, advance) ever appends a
StatusEvent for that order again. The well-formedness hypothesis says every
stored event's order id is below the auto-increment counter, which create
maintains. -/
theorem C1_inStorage_terminal (db : Db) (oid : Nat) (ev : StatusEvent)
    (hcur : currentStatus db oid = some ev) (hst : ev.status = Status.InStorage)
    (hwf : ∀ e ∈ db.events, e.order_id < db.nextOrderId) :
    (∀ uo : UpdateOrder, uo.id = oid → ∀ now fof tf,
      update_order db uo now false fof tf =
        (.badRequest "Order is already in storage", db, [])) ∧
    (∀ po now tf e, e ∈ (new_order db po now tf).2.1.events → e.order_id = oid →
      e ∈ db.events) ∧
    (∀ co f1 f2, (change_order db co f1 f2).2.1.events = db.events) ∧
    (∀ i force f1 f2 f3 e, e ∈ (cancel_order db i force f1 f2 f3).2.1.events →
      e ∈ db.events) ∧
    (∀ uo : UpdateOrder, ∀ now f1 f2 f3 e,
      e ∈ (update_order db uo now f1 f2 f3).2.1.events → e.order_id = oid →
      e ∈ db.events) := by
  have hoid : oid < db.nextOrderId := by
    have hm := currentStatus_mem hcur
    exact hm.2 ▸ hwf ev hm.1
  refine ⟨?_, ?_, ?_, ?_, ?_⟩
  · intro uo huo now fof tf
    exact update_order_terminal_eq db uo ev (by rw [huo]; exact hcur) hst now fof tf
  · intro po now tf e he heq
    rcases new_order_events_sub db po now tf e he with h | h
    · exact h
    · exact absurd (heq.symm.trans h) (Nat.ne_of_lt hoid)
  · exact change_order_events db
  · exact cancel_order_events_sub db
  · intro uo now f1 f2 f3 e he heq
    by_cases hid : uo.id = oid
    · rw [update_order_terminal_db db uo ev (by rw [hid]; exact hcur) hst now f1 f2 f3] at he
      exact he
    · rcases update_order_events_sub db uo now f1 f2 f3 e he with h | h
      · exact h
      · exact absurd (h.symm.trans heq) hid

/-- C1 witness: at the concrete terminal state dbStor, an advance to Ordered is
rejected with the conflict and changes nothing. -/
theorem C1_witness :
    update_order dbStor ⟨1, Status.Ordered, some 5⟩ 3 false false false =
      (HResp.badRequest "Order is already in storage", dbStor, []) :=
  (C1_inStorage_terminal dbStor 1 ⟨1, 2, 1, Status.InStorage⟩ (by decide) rfl
    (by decide)).1 ⟨1, Status.Ordered, some 5⟩ rfl 3 false false

/-- C2: the implementation does NOT serialize the read-current-status-then-write
sequence: the validation read runs on the plain connection before, and outside,
the write transaction, with no per-order lock. Interleaving two advance calls
for order 1 (current status New, both targeting Ordered) as read A, read B,
write A, write B: both calls validate against the same stale current status
(the single read shown, which both perform on the same state, proceeds with
same_status = false), both write transactions commit with HResp.ok, and the
ledger ends with two Ordered events — the duplicate transition the claimed
serialization would prevent. -/
theorem C2_race :
    update_order_read dbNew ⟨1, Status.Ordered, none⟩ false false =
      UpdReadOut.proceed false (updMsg oW ⟨1, Status.Ordered, none⟩) ∧
    (update_order_write dbNew ⟨1, Status.Ordered, none⟩ false 1 false).1 = HResp.ok ∧
    (update_order_write (update_order_write dbNew ⟨1, Status.Ordered, none⟩ false 1 false).2
      ⟨1, Status.Ordered, none⟩ false 2 false).1 = HResp.ok ∧
    eventsFor (update_order_write (update_order_write dbNew ⟨1, Status.Ordered, none⟩
      false 1 false).2 ⟨1, Status.Ordered, none⟩ false 2 false).2 1 =
      [⟨1, 1, 0, Status.New⟩, ⟨1, 2, 1, Status.Ordered⟩, ⟨1, 3, 2, Status.Ordered⟩] := by
  decide

/-- C3 counterexample: in the orphan state a non-force cancel leaves behind
(status history with current status New, no Order row), the current status is
New and yet amend does not succeed — and it fails with an internal error, not
the "already been processed" conflict. This refutes "amend succeeds iff the
current status is New; otherwise a conflict error". -/
theorem C3_cex :
    (currentStatus dbOrphan 1).map StatusEvent.status = some Status.New ∧
    (change_order dbOrphan coEx false false).1 ≠ HResp.ok ∧
    (change_order dbOrphan coEx false false).1 ≠
      HResp.badRequest "Order has already been processed" := by
  decide

/-- C3 (amended): absent storage failures, amend succeeds iff the order's
current status is New AND the Order row exists; whenever a current status
exists but is not New it returns the "already been processed" conflict; in
every non-success case the orders table is unchanged, and the status ledger is
never touched at all. -/
theorem C3_amend_iff (db : Db) (co : ChangeOrder) :
    ((change_order db co false false).1 = HResp.ok ↔
      ((currentStatus db co.id).map StatusEvent.status = some Status.New ∧
        (findOrder db co.id).isSome = true)) ∧
    (∀ ev, currentStatus db co.id = some ev → ev.status ≠ Status.New →
      (change_order db co false false).1 =
        HResp.badRequest "Order has already been processed") ∧
    ((change_order db co false false).1 ≠ HResp.ok →
      (change_order db co false false).2.1 = db) ∧
    (change_order db co false false).2.1.events = db.events := by
  refine ⟨?_, ?_, ?_, change_order_events db co false false⟩
  · cases hc : currentStatus db co.id with
    | none => simp [change_order, hc]
    | some ev =>
      by_cases hn : ev.status = Status.New
      · cases ho : findOrder db co.id with
        | none => simp [change_order, hc, hn, ho]
        | some o => simp [change_order, hc, hn, ho]
      · simp [change_order, hc, hn]
  · intro ev hc hn
    simp [change_order, hc, hn]
  · intro hne
    cases hc : currentStatus db co.id with
    | none => simp [change_order, hc]
    | some ev =>
      by_cases hn : ev.status = Status.New
      · cases ho : findOrder db co.id with
        | none => simp [change_order, hc, hn, ho]
        | some o =>
          exact absurd (by simp [change_order, hc, hn, ho]) hne
      · simp [change_order, hc, hn]

/-- C3 witness: on the well-formed state dbNew (order row present, current
status New) amend succeeds. -/
theorem C3_witness : (change_order dbNew coEx false false).1 = HResp.ok :=
  (C3_amend_iff dbNew coEx).1.mpr (by decide)

/-- C4: every create call either commits exactly the two rows — the Order row
(with the freshly assigned id and null ref_number) and its New StatusEvent — or,
when the transaction fails, reports the storage error and commits nothing;
never exactly one of the two. -/
theorem C4_create_atomic (db : Db) (po : PendingOrder) (now : Nat) (txFail : Bool) :
    ((new_order db po now txFail).1 = HResp.ok ∧
      (new_order db po now txFail).2.1.orders =
        db.orders ++ [orderOfPending po db.nextOrderId] ∧
      (new_order db po now txFail).2.1.events =
        db.events ++ [⟨db.nextOrderId, maxInstance db db.nextOrderId + 1, now, Status.New⟩]) ∨
    ((new_order db po now txFail).1 = HResp.internalError ∧
      (new_order db po now txFail).2.1 = db) := by
  cases txFail with
  | false => exact .inl ⟨rfl, rfl, rfl⟩
  | true => exact .inr ⟨rfl, rfl⟩

/-- Full evaluation of a same-status amend: non-terminal current status equal to
the target, ref_number supplied, Order row present, no storage failure. -/
theorem update_order_same_status_eq (db : Db) (uo : UpdateOrder) (o : Order)
    (ev : StatusEvent) (now : Nat) (h1 : currentStatus db uo.id = some ev)
    (h2 : ev.status ≠ Status.InStorage) (h3 : ev.status = uo.status)
    (h4 : findOrder db uo.id = some o) (h5 : uo.ref_number.isSome = true) :
    update_order db uo now false false false =
      (.ok, replaceOrderRow db uo.id { o with ref_number := uo.ref_number }, []) := by
  have hd : decide (ev.status = uo.status) = true := decide_eq_true h3
  have hnn : uo.ref_number ≠ none := by
    intro hx
    rw [hx] at h5
    cases h5
  have h2' : uo.status ≠ Status.InStorage := h3 ▸ h2
  have hread : update_order_read db uo false false = .proceed true (updMsg o uo) := by
    unfold update_order_read
    simp [h1, h2, h2', h3, h4, hd, hnn]
  have hwrite : update_order_write db uo true now false =
      (.ok, replaceOrderRow db uo.id { o with ref_number := uo.ref_number }) := by
    unfold update_order_write
    simp [h4]
  unfold update_order
  rw [hread]
  dsimp only
  rw [hwrite]
  rfl

/-- Full evaluation of a real status change: non-terminal current status
different from the target, Order row present, no storage failure. -/
theorem update_order_advance_eq (db : Db) (uo : UpdateOrder) (o : Order)
    (ev : StatusEvent) (now : Nat) (h1 : currentStatus db uo.id = some ev)
    (h2 : ev.status ≠ Status.InStorage) (h3 : ev.status ≠ uo.status)
    (h4 : findOrder db uo.id = some o) :
    update_order db uo now false false false =
      (.ok, replaceOrderRow (appendEvent db uo.id uo.status now) uo.id
        { o with ref_number := uo.ref_number },
        [(.orderUpdates, uo.id, updMsg o uo)]) := by
  have hd : decide (ev.status = uo.status) = false := decide_eq_false h3
  have hread : update_order_read db uo false false = .proceed false (updMsg o uo) := by
    unfold update_order_read
    simp [h1, h2, h3, h4, hd]
  have hfo : findOrder (appendEvent db uo.id uo.status now) uo.id = some o := h4
  have hwrite : update_order_write db uo false now false =
      (.ok, replaceOrderRow (appendEvent db uo.id uo.status now) uo.id
        { o with ref_number := uo.ref_number }) := by
    unfold update_order_write
    simp [hfo]
  unfold update_order
  rw [hread]
  dsimp only
  rw [hwrite]
  rfl

/-- C5: a same-status advance with a supplied ref_number r on an order whose
current status is non-terminal succeeds, sets the Order's ref_number to r,
appends no StatusEvent (the ledger and its per-order maximum instance_id are
unchanged), and emits no notification on any channel. -/
theorem C5_same_status_amend (db : Db) (uo : UpdateOrder) (o : Order) (ev : StatusEvent)
    (now r : Nat) (h1 : currentStatus db uo.id = some ev)
    (h2 : ev.status ≠ Status.InStorage) (h3 : ev.status = uo.status)
    (h4 : findOrder db uo.id = some o) (h5 : uo.ref_number = some r) :
    (update_order db uo now false false false).1 = HResp.ok ∧
    findOrder (update_order db uo now false false false).2.1 uo.id =
      some { o with ref_number := some r } ∧
    (update_order db uo now false false false).2.1.events = db.events ∧
    maxInstance (update_order db uo now false false false).2.1 uo.id =
      maxInstance db uo.id ∧
    (update_order db uo now false false false).2.2 = [] := by
  rw [update_order_same_status_eq db uo o ev now h1 h2 h3 h4 (by rw [h5]; rfl)]
  rw [h5]
  exact ⟨rfl, findOrder_replace h4 rfl, rfl, rfl, rfl⟩

/-- C5 witness at dbNew: advancing order 1 to its current status New with
ref_number 5 updates only the ref_number and emits nothing. -/
theorem C5_witness :
    (update_order dbNew ⟨1, Status.New, some 5⟩ 4 false false false).1 = HResp.ok ∧
    findOrder (update_order dbNew ⟨1, Status.New, some 5⟩ 4 false false false).2.1 1 =
      some { oW with ref_number := some 5 } ∧
    (update_order dbNew ⟨1, Status.New, some 5⟩ 4 false false false).2.1.events =
      dbNew.events ∧
    maxInstance (update_order dbNew ⟨1, Status.New, some 5⟩ 4 false false false).2.1 1 =
      maxInstance dbNew 1 ∧
    (update_order dbNew ⟨1, Status.New, some 5⟩ 4 false false false).2.2 = [] :=
  C5_same_status_amend dbNew ⟨1, Status.New, some 5⟩ oW ⟨1, 1, 0, Status.New⟩ 4 5
    (by decide) (by decide) rfl (by decide) rfl

/-- C6: advancing an order whose current status is non-terminal and differs from
the target appends exactly one StatusEvent, whose instance_id is the previous
per-order maximum plus one, with the target status and the current date. -/
theorem C6_advance_appends (db : Db) (uo : UpdateOrder) (o : Order) (ev : StatusEvent)
    (now : Nat) (h1 : currentStatus db uo.id = some ev)
    (h2 : ev.status ≠ Status.InStorage) (h3 : ev.status ≠ uo.status)
    (h4 : findOrder db uo.id = some o) :
    (update_order db uo now false false false).1 = HResp.ok ∧
    (update_order db uo now false false false).2.1.events =
      db.events ++ [⟨uo.id, maxInstance db uo.id + 1, now, uo.status⟩] := by
  rw [update_order_advance_eq db uo o ev now h1 h2 h3 h4]
  exact ⟨rfl, rfl⟩

/-- C6 witness at dbNew: advancing order 1 from New to Ordered appends the event
with instance_id 2. -/
theorem C6_witness :
    (update_order dbNew ⟨1, Status.Ordered, none⟩ 9 false false false).1 = HResp.ok ∧
    (update_order dbNew ⟨1, Status.Ordered, none⟩ 9 false false false).2.1.events =
      dbNew.events ++ [⟨1, maxInstance dbNew 1 + 1, 9, Status.Ordered⟩] :=
  C6_advance_appends dbNew ⟨1, Status.Ordered, none⟩ oW ⟨1, 1, 0, Status.New⟩ 9
    (by decide) (by decide) (by decide) (by decide)

/-- C7: in the state a non-force cancel leaves behind (status events with
current status New, but no Order row), both cancel and advance treat the order
as existing: every cancel call (force or not) reaches the unreachable! at the
Order-row lookup and panics; every advance call either hits the early
same-state conflict (target New with no ref_number — the only path that stops
before the lookup) or reaches the same unreachable! and panics. In particular
no call returns the "Order not found" error. -/
theorem C7_orphan_panics (db : Db) (oid : Nat) (ev : StatusEvent)
    (h1 : currentStatus db oid = some ev) (h2 : ev.status = Status.New)
    (h3 : findOrder db oid = none) :
    (∀ force, cancel_order db oid force false false false = (.panicked, db, [])) ∧
    (∀ uo : UpdateOrder, uo.id = oid → uo.status = Status.New → uo.ref_number = none →
      ∀ now, update_order db uo now false false false =
        (.badRequest "Order is already in that state", db, [])) ∧
    (∀ uo : UpdateOrder, uo.id = oid →
      ¬(uo.status = Status.New ∧ uo.ref_number = none) →
      ∀ now, update_order db uo now false false false = (.panicked, db, [])) := by
  refine ⟨?_, ?_, ?_⟩
  · intro force
    unfold cancel_order
    simp [h1, h2, h3]
  · intro uo hid hstat href now
    have h1' : currentStatus db uo.id = some ev := by rw [hid]; exact h1
    have hread : update_order_read db uo false false =
        .early (.badRequest "Order is already in that state") := by
      unfold update_order_read
      simp [h1', h2, hstat, href]
    unfold update_order
    rw [hread]
  · intro uo hid hna now
    have h1' : currentStatus db uo.id = some ev := by rw [hid]; exact h1
    have h3' : findOrder db uo.id = none := by rw [hid]; exact h3
    have hcond : ¬(ev.status = uo.status ∧ uo.ref_number = none) := by
      intro hx
      exact hna ⟨hx.1.symm.trans h2, hx.2⟩
    have hcond' : ¬(Status.New = uo.status ∧ uo.ref_number = none) := h2 ▸ hcond
    have hread : update_order_read db uo false false = .early .panicked := by
      unfold update_order_read
      simp [h1', h2, hcond, h3']
      exact fun ha hb => hcond' ⟨ha, hb⟩
    unfold update_order
    rw [hread]

/-- C7 witness at the concrete orphan state dbOrphan: force cancel, non-force
cancel and an advance to Ordered all panic. -/
theorem C7_witness :
    cancel_order dbOrphan 1 true false false false = (HResp.panicked, dbOrphan, []) ∧
    cancel_order dbOrphan 1 false false false false = (HResp.panicked, dbOrphan, []) ∧
    update_order dbOrphan ⟨1, Status.Ordered, none⟩ 0 false false false =
      (HResp.panicked, dbOrphan, []) :=
  ⟨(C7_orphan_panics dbOrphan 1 ⟨1, 1, 0, Status.New⟩ (by decide) rfl (by decide)).1 true,
   (C7_orphan_panics dbOrphan 1 ⟨1, 1, 0, Status.New⟩ (by decide) rfl (by decide)).1 false,
   (C7_orphan_panics dbOrphan 1 ⟨1, 1, 0, Status.New⟩ (by decide) rfl (by decide)).2.2
     ⟨1, Status.Ordered, none⟩ rfl (by decide) 0⟩

/-- C8 counterexample: order 1 holds ref_number 7 and its current status is New;
advancing it to Ordered with no ref_number supplied succeeds but CLEARS the
stored ref_number to null (the handler writes ActiveValue::Set of the supplied
Option unconditionally), so the Order row is not left unchanged. -/
theorem C8_cex :
    (findOrder dbRef 1).map Order.ref_number = some (some 7) ∧
    (update_order dbRef ⟨1, Status.Ordered, none⟩ 2 false false false).1 = HResp.ok ∧
    (findOrder (update_order dbRef ⟨1, Status.Ordered, none⟩ 2 false false false).2.1 1).map
      Order.ref_number = some none := by
  decide

/-- C8 (amended): when advance performs a real status change, the Order row's
ref_number is overwritten with exactly the supplied optional value — so it is
cleared to null when the caller supplies none — while every other Order field is
left unchanged. -/
theorem C8_ref_overwritten (db : Db) (uo : UpdateOrder) (o : Order) (ev : StatusEvent)
    (now : Nat) (h1 : currentStatus db uo.id = some ev)
    (h2 : ev.status ≠ Status.InStorage) (h3 : ev.status ≠ uo.status)
    (h4 : findOrder db uo.id = some o) :
    findOrder (update_order db uo now false false false).2.1 uo.id =
      some { o with ref_number := uo.ref_number } := by
  rw [update_order_advance_eq db uo o ev now h1 h2 h3 h4]
  exact @findOrder_replace (appendEvent db uo.id uo.status now) uo.id o _ h4 rfl

/-- C8 witness at dbRef: the advance clears the stored ref_number 7 to null and
keeps the rest of the row. -/
theorem C8_witness :
    findOrder (update_order dbRef ⟨1, Status.Ordered, none⟩ 2 false false false).2.1 1 =
      some { oW7 with ref_number := none } :=
  C8_ref_overwritten dbRef ⟨1, Status.Ordered, none⟩ oW7 ⟨1, 1, 0, Status.New⟩ 2
    (by decide) (by decide) (by decide) (by decide)

/-- C9: force cancel of an existing order (Order row and status history present)
succeeds whatever the current status is, removing the Order row and every
StatusEvent of the order in one transaction; when that transaction fails,
nothing at all is removed. -/
theorem C9_force_cancel (db : Db) (id : Nat) (o : Order) (ev : StatusEvent)
    (h1 : currentStatus db id = some ev) (h4 : findOrder db id = some o)
    (delFail : Bool) :
    (delFail = false →
      cancel_order db id true false false delFail =
        (.ok, { db with orders := db.orders.filter (fun x => x.id != id),
                        events := db.events.filter (fun e => e.order_id != id) },
          [(.newOrders, id, cancelMsg o)])) ∧
    (delFail = true →
      cancel_order db id true false false delFail = (.internalError, db, [])) := by
  constructor <;> intro hd <;> subst hd <;>
    (unfold cancel_order; simp [h1, h4])

/-- C9 witness at dbStor: force cancel succeeds even though the current status is
the terminal InStorage, removing the row and both events. -/
theorem C9_witness :
    cancel_order dbStor 1 true false false false =
      (HResp.ok, { dbStor with orders := dbStor.orders.filter (fun x => x.id != 1),
                               events := dbStor.events.filter (fun e => e.order_id != 1) },
        [(Channel.newOrders, 1, cancelMsg oW)]) :=
  (C9_force_cancel dbStor 1 oW ⟨1, 2, 1, Status.InStorage⟩ (by decide) (by decide)
    false).1 rfl

/-- C10: the subtotal text used by the create and amend notifications is the
display of Decimal::from(count) * unit_cost; that product is exact decimal
arithmetic — its rational value is exactly count times the rational value of
unit_cost (within rust_decimal's 96-bit mantissa and scale-28 range, where its
multiplication does not round) — and count 10 at unit cost 2.50 renders as
"25.00". -/
theorem C10_subtotal_exact :
    (∀ (c : Nat) (u : Decimal), c * u.mantissa < 2 ^ 96 → u.scale ≤ 28 →
      ((Decimal.fromNat c).mul u).toRat = (c : ℚ) * u.toRat) ∧
    subtotalText 10 ⟨250, 2⟩ = "25.00" := by
  constructor
  · intro c u hm hs
    simp only [Decimal.fromNat, Decimal.mul, Decimal.toRat, Nat.zero_add]
    push_cast
    ring
  · decide

/-- C10 witness: the exactness statement instantiated at count 10 and unit cost
2.50 (mantissa 250, scale 2). -/
theorem C10_witness :
    ((Decimal.fromNat 10).mul ⟨250, 2⟩).toRat = (10 : ℚ) * Decimal.toRat ⟨250, 2⟩ :=
  C10_subtotal_exact.1 10 ⟨250, 2⟩ (by norm_num) (by norm_num)

end Usr
